import Mathlib

/-!
# Verification of the frc-motion-calc kinematics pipeline

Shallow embedding of `src/calculate_stats.js` from the `frc-motion-calc`
repository: the three pairwise derivation functions (`calculateDistances`,
`calculateSpeeds`, `calculateAccelerations`), the per-match summary, the
global summary, and the chart-series projection, together with theorems
about them.

JavaScript numbers are modelled by `JSNum`: an exact rational for every
finite value, plus `posInf`, `negInf` and `nan`, with the IEEE-754 special
value propagation rules of JS arithmetic (`+`, `-`, `*`, `/`, `Math.round`,
`Math.max`, `Math.min`).  Finite arithmetic is exact (rounding error of
binary floating point is abstracted away); the special values are modelled
faithfully, since division by a zero duration and `Math.max()` over an
empty list are observable behaviours of the program.  `Math.sqrt` is kept
as an explicit function parameter `sqrt : JSNum → JSNum` of the pipeline.
-/

/-- A JavaScript number: an exact finite rational, an infinity, or NaN. -/
inductive JSNum where
  | fin (q : ℚ)
  | posInf
  | negInf
  | nan
deriving DecidableEq

namespace JSNum

/-- JS addition `a + b` on numbers. -/
def jsAdd : JSNum → JSNum → JSNum
  | nan, _ => nan
  | _, nan => nan
  | posInf, negInf => nan
  | negInf, posInf => nan
  | posInf, posInf => posInf
  | posInf, fin _ => posInf
  | fin _, posInf => posInf
  | negInf, negInf => negInf
  | negInf, fin _ => negInf
  | fin _, negInf => negInf
  | fin a, fin b => fin (a + b)

/-- JS unary negation `-a`. -/
def jsNeg : JSNum → JSNum
  | nan => nan
  | posInf => negInf
  | negInf => posInf
  | fin a => fin (-a)

/-- JS subtraction `a - b` (equals `a + (-b)` in IEEE-754). -/
def jsSub (a b : JSNum) : JSNum := jsAdd a (jsNeg b)

/-- JS multiplication `a * b`. -/
def jsMul : JSNum → JSNum → JSNum
  | nan, _ => nan
  | _, nan => nan
  | fin a, fin b => fin (a * b)
  | posInf, posInf => posInf
  | posInf, negInf => negInf
  | negInf, posInf => negInf
  | negInf, negInf => posInf
  | posInf, fin b => if 0 < b then posInf else if b < 0 then negInf else nan
  | fin a, posInf => if 0 < a then posInf else if a < 0 then negInf else nan
  | negInf, fin b => if 0 < b then negInf else if b < 0 then posInf else nan
  | fin a, negInf => if 0 < a then negInf else if a < 0 then posInf else nan

/-- JS division `a / b`.  Division of a finite value by (positive) zero
yields an infinity of the numerator's sign, `0 / 0` yields NaN.
(`ℚ` has no negative zero, so a zero divisor is treated as `+0`,
which is what the program's rounded non-negative durations produce.) -/
def jsDiv : JSNum → JSNum → JSNum
  | nan, _ => nan
  | _, nan => nan
  | posInf, posInf => nan
  | posInf, negInf => nan
  | negInf, posInf => nan
  | negInf, negInf => nan
  | posInf, fin b => if b < 0 then negInf else posInf
  | negInf, fin b => if b < 0 then posInf else negInf
  | fin _, posInf => fin 0
  | fin _, negInf => fin 0
  | fin a, fin b =>
      if b = 0 then (if 0 < a then posInf else if a < 0 then negInf else nan)
      else fin (a / b)

/-- `Math.round`: round half toward positive infinity (`⌊x + 1/2⌋`),
fixing infinities and NaN. -/
def jsRound : JSNum → JSNum
  | nan => nan
  | posInf => posInf
  | negInf => negInf
  | fin a => fin ((round a : ℤ) : ℚ)

/-- `Math.pow(x, 2)`, i.e. squaring. -/
def jsPow2 (x : JSNum) : JSNum := jsMul x x

/-- Binary `Math.max`: NaN-poisoning maximum. -/
def jsMax2 : JSNum → JSNum → JSNum
  | nan, _ => nan
  | _, nan => nan
  | posInf, _ => posInf
  | _, posInf => posInf
  | negInf, b => b
  | a, negInf => a
  | fin a, fin b => fin (max a b)

/-- Binary `Math.min`: NaN-poisoning minimum. -/
def jsMin2 : JSNum → JSNum → JSNum
  | nan, _ => nan
  | _, nan => nan
  | negInf, _ => negInf
  | _, negInf => negInf
  | posInf, b => b
  | a, posInf => a
  | fin a, fin b => fin (min a b)

/-- `Math.max(...l)`: the spread call over a list, `-Infinity` when empty. -/
def jsMaxList (l : List JSNum) : JSNum := l.foldl jsMax2 negInf

/-- `Math.min(...l)`: the spread call over a list, `+Infinity` when empty. -/
def jsMinList (l : List JSNum) : JSNum := l.foldl jsMin2 posInf

/-- Whether the number is a finite value (neither an infinity nor NaN). -/
def isFinite : JSNum → Bool
  | fin _ => true
  | _ => false

/-- JS comparison `a <= b` (false whenever NaN is involved). -/
def jsLe : JSNum → JSNum → Bool
  | nan, _ => false
  | _, nan => false
  | negInf, _ => true
  | _, posInf => true
  | posInf, _ => false
  | _, negInf => false
  | fin a, fin b => a ≤ b

/-- JS comparison `a < b` (false whenever NaN is involved). -/
def jsLt : JSNum → JSNum → Bool
  | nan, _ => false
  | _, nan => false
  | posInf, _ => false
  | _, posInf => true
  | negInf, negInf => false
  | negInf, _ => true
  | _, negInf => false
  | fin a, fin b => a < b

end JSNum

open JSNum

/-- A raw telemetry sample as received from the API: `{time, x, y}` where
either coordinate may be `null` (modelled by `Option`). -/
structure RawPoint where
  time : JSNum
  x : Option JSNum
  y : Option JSNum
deriving DecidableEq

/-- A usable position sample, after null-coordinate samples are removed. -/
structure Point where
  time : JSNum
  x : JSNum
  y : JSNum
deriving DecidableEq

/-- A distance segment: field names follow the source
(`timestamp`, `time` = the rounded duration, `distance`). -/
structure DistanceSegment where
  timestamp : JSNum
  time : JSNum
  distance : JSNum
deriving DecidableEq

/-- A speed sample `{timestamp, speed}`. -/
structure SpeedSample where
  timestamp : JSNum
  speed : JSNum
deriving DecidableEq

/-- An acceleration sample `{timestamp, time, acceleration}`. -/
structure AccelerationSample where
  timestamp : JSNum
  time : JSNum
  acceleration : JSNum
deriving DecidableEq

/-- `arr.map((v, i) => ...).filter(Boolean)` where the callback returns a
value built from `arr[i]` and `arr[i+1]` when both are defined and
`undefined` otherwise: the emit-per-adjacent-pair idiom shared by the three
derivation functions of `calculate_stats.js`. -/
def mapAdjacent (f : α → α → β) (l : List α) : List β :=
  (List.range l.length).filterMap (fun i =>
    match l[i]?, l[i + 1]? with
    | some a, some b => some (f a b)
    | _, _ => none)

/-- `calculateDistances` (src/calculate_stats.js, lines 139–165): for each
point that has a successor, emit
`{timestamp: p1.time, time: Math.round((p2.time - p1.time) * 10) / 10,
distance: Math.sqrt(Math.pow(p2.x - p1.x, 2) + Math.pow(p2.y - p1.y, 2))}`. -/
def calculateDistances (sqrt : JSNum → JSNum) (_points : List Point) :
    List DistanceSegment :=
  mapAdjacent (fun p1 p2 =>
    { timestamp := p1.time
      time := jsDiv (jsRound (jsMul (jsSub p2.time p1.time) (fin 10))) (fin 10)
      distance := sqrt (jsAdd (jsPow2 (jsSub p2.x p1.x)) (jsPow2 (jsSub p2.y p1.y))) })
    _points

/-- `calculateSpeeds` (src/calculate_stats.js, lines 172–190): for each
distance segment that has a successor, emit
`{timestamp: dist.timestamp, speed: Math.round(dist.distance / dist.time * 100) / 100}`. -/
def calculateSpeeds (_distances : List DistanceSegment) : List SpeedSample :=
  mapAdjacent (fun dist _next =>
    { timestamp := dist.timestamp
      speed := jsDiv (jsRound (jsMul (jsDiv dist.distance dist.time) (fin 100))) (fin 100) })
    _distances

/-- `calculateAccelerations` (src/calculate_stats.js, lines 197–221): for
each speed sample that has a successor, emit
`{timestamp: s1.timestamp, time: Math.round((s2.timestamp - s1.timestamp) * 10) / 10,
acceleration: Math.round((s2.speed - s1.speed) * 100) / 100}`. -/
def calculateAccelerations (_speeds : List SpeedSample) : List AccelerationSample :=
  mapAdjacent (fun s1 s2 =>
    { timestamp := s1.timestamp
      time := jsDiv (jsRound (jsMul (jsSub s2.timestamp s1.timestamp) (fin 10))) (fin 10)
      acceleration := jsDiv (jsRound (jsMul (jsSub s2.speed s1.speed) (fin 100))) (fin 100) })
    _speeds

/-- One match record handed to the engine:
`{match, team, points}` (the `match` field is named `matchKey` here since
`match` is a Lean keyword). -/
structure MatchData where
  matchKey : String
  team : Int
  points : List RawPoint
deriving DecidableEq

/-- One entry of `stats.individual_matches`
(src/calculate_stats.js, lines 239–250). -/
structure MatchSummary where
  matchKey : String
  team : Int
  maxSpeed_fps : JSNum
  avgSpeed_fps : JSNum
  maxAccel_fpsps : JSNum
  maxBrake_fpsps : JSNum
deriving DecidableEq

/-- The global fields of `stats` (src/calculate_stats.js, lines 282–290). -/
structure GlobalStats where
  maxSpeed_fps : JSNum
  avgMaxSpeed_fps : JSNum
  avgSpeed_fps : JSNum
  maxAccel_fpsps : JSNum
  avgMaxAccel_fpsps : JSNum
  maxBrake_fpsps : JSNum
  avgMaxBrake_fpsps : JSNum
deriving DecidableEq

/-- The full `stats` object written to `stats.json`. -/
structure Stats where
  individual_matches : List MatchSummary
  globalStats : GlobalStats
deriving DecidableEq

/-- `match.points.filter(point => point.x !== null && point.y !== null)`
(src/calculate_stats.js, line 231): drop samples with a null coordinate. -/
def filterPoints (points : List RawPoint) : List Point :=
  points.filterMap (fun point =>
    match point.x, point.y with
    | some x, some y => some { time := point.time, x := x, y := y }
    | _, _ => none)

/-- `arr.reduce((a, b) => a + b)` with no initial value: JS throws a
`TypeError` on an empty array (modelled by `none`), otherwise folds
JS addition from the first element. -/
def reduceAdd : List JSNum → Option JSNum
  | [] => none
  | x :: xs => some (xs.foldl jsAdd x)

/-- The per-match body of the `forEach` in `module.exports`
(src/calculate_stats.js, lines 229–250): filter the points, derive
distances, speeds and accelerations, and build the
`individual_matches` entry.  `none` models the uncaught `TypeError`
thrown by `reduce` when the speed list is empty. -/
def processMatch (sqrt : JSNum → JSNum) (m : MatchData) : Option MatchSummary :=
  let filteredPoints := filterPoints m.points
  let distances := calculateDistances sqrt filteredPoints
  let speeds := calculateSpeeds distances
  let accelerations := calculateAccelerations speeds
  (reduceAdd (speeds.map (fun s => s.speed))).map (fun total =>
    { matchKey := m.matchKey
      team := m.team
      maxSpeed_fps := jsMaxList (speeds.map (fun s => s.speed))
      avgSpeed_fps :=
        jsDiv (jsRound (jsMul (jsDiv total (fin (speeds.length : ℚ))) (fin 100))) (fin 100)
      maxAccel_fpsps := jsMaxList (accelerations.map (fun a => a.acceleration))
      maxBrake_fpsps := jsMinList (accelerations.map (fun a => a.acceleration)) })

/-- The global aggregation over `stats.individual_matches`
(src/calculate_stats.js, lines 282–290).  Each average divides a
`reduce((a, b) => a + b)` sum by the list length; `none` models the
`TypeError` thrown when `individual_matches` is empty. -/
def summarizeGlobal (ims : List MatchSummary) : Option GlobalStats := do
  let sumMaxSpeed ← reduceAdd (ims.map (fun m => m.maxSpeed_fps))
  let sumAvgSpeed ← reduceAdd (ims.map (fun m => m.avgSpeed_fps))
  let sumMaxAccel ← reduceAdd (ims.map (fun m => m.maxAccel_fpsps))
  let sumMaxBrake ← reduceAdd (ims.map (fun m => m.maxBrake_fpsps))
  pure
    { maxSpeed_fps := jsMaxList (ims.map (fun m => m.maxSpeed_fps))
      avgMaxSpeed_fps := jsDiv sumMaxSpeed (fin (ims.length : ℚ))
      avgSpeed_fps := jsDiv sumAvgSpeed (fin (ims.length : ℚ))
      maxAccel_fpsps := jsMaxList (ims.map (fun m => m.maxAccel_fpsps))
      avgMaxAccel_fpsps := jsDiv sumMaxAccel (fin (ims.length : ℚ))
      maxBrake_fpsps := jsMinList (ims.map (fun m => m.maxBrake_fpsps))
      avgMaxBrake_fpsps := jsDiv sumMaxBrake (fin (ims.length : ℚ)) }

/-- The whole `module.exports` pipeline (src/calculate_stats.js,
lines 228–294), chart rendering aside: process every match in order, then
aggregate globally.  Any uncaught exception inside the `forEach` or the
global aggregation aborts the run before `stats.json` is produced,
modelled by `none`. -/
def calculate (sqrt : JSNum → JSNum) (data : List MatchData) : Option Stats := do
  let ims ← data.mapM (processMatch sqrt)
  let g ← summarizeGlobal ims
  pure { individual_matches := ims, globalStats := g }

/-- One datum of the chart's `data[0].values` array:
`{x, y, c}` where `c` is the numeric series tag
(`0` for the speed series, `1` for the acceleration series). -/
structure ChartPoint where
  x : JSNum
  y : JSNum
  c : JSNum
deriving DecidableEq

/-- The series projection loaded into the chart configuration
(src/calculate_stats.js, lines 256–268):
`speedData = speeds.map(s => ({x: s.timestamp, y: s.speed, c: 0}))`,
`AccelData = accelerations.map(a => ({x: a.timestamp, y: a.acceleration, c: 1}))`,
concatenated as `[...speedData, ...AccelData]`. -/
def chartValues (speeds : List SpeedSample) (accelerations : List AccelerationSample) :
    List ChartPoint :=
  (speeds.map (fun s => { x := s.timestamp, y := s.speed, c := fin 0 }))
    ++ (accelerations.map (fun a => { x := a.timestamp, y := a.acceleration, c := fin 1 }))

/-- The exact arithmetic mean of a list of rationals (spec-side notion,
for comparison with the global averages computed by the program). -/
def ratMean (l : List ℚ) : ℚ := l.sum / (l.length : ℚ)

/-- Timestamps of a list of position samples are strictly increasing
under the JS `<` comparison. -/
def strictlyIncreasingTimes (pts : List Point) : Prop :=
  List.Chain' (fun p q => jsLt p.time q.time = true) pts

/-- Every sample of the list has finite time and finite coordinates. -/
def allFiniteSamples (pts : List Point) : Prop :=
  ∀ p ∈ pts, p.time.isFinite = true ∧ p.x.isFinite = true ∧ p.y.isFinite = true

/-- A list of JS numbers is non-decreasing under the JS `<=` comparison. -/
def jsNondecreasing (l : List JSNum) : Prop :=
  List.Chain' (fun a b => jsLe a b = true) l


/-- A concrete stand-in for `Math.sqrt` used when evaluating the pipeline
on concrete inputs (the identity function; the pipeline's control flow
never depends on the value `sqrt` returns). -/
def sqrtStub : JSNum → JSNum := fun x => x

/-- Concrete position samples (Scenario A of the spec):
`[{t:0,x:0,y:0},{t:1,x:3,y:4},{t:2,x:3,y:4}]`. -/
def samplePoints : List Point :=
  [ { time := fin 0, x := fin 0, y := fin 0 }
  , { time := fin 1, x := fin 3, y := fin 4 }
  , { time := fin 2, x := fin 3, y := fin 4 } ]

/-- Concrete distance segments: the first has a zero duration. -/
def sampleDistances : List DistanceSegment :=
  [ { timestamp := fin 0, time := fin 1, distance := fin 25 }
  , { timestamp := fin 1, time := fin 1, distance := fin 0 } ]

/-- A match with two raw samples of which only one is usable
(the first sample has a null `y` coordinate). -/
def badMatch : MatchData :=
  { matchKey := "qm1"
    team := 2539
    points :=
      [ { time := fin 0, x := some (fin 1), y := none }
      , { time := fin 1, x := some (fin 2), y := some (fin 3) } ] }

/-- A match with three usable samples (Scenario A), enough for the whole
pipeline to produce a summary. -/
def goodMatch : MatchData :=
  { matchKey := "qm2"
    team := 2539
    points :=
      [ { time := fin 0, x := some (fin 0), y := some (fin 0) }
      , { time := fin 1, x := some (fin 3), y := some (fin 4) }
      , { time := fin 2, x := some (fin 3), y := some (fin 4) } ] }

/-! ## Helper lemmas -/

theorem range_filterMap_succ (g : ℕ → Option β) (n : ℕ) :
    (List.range (n + 1)).filterMap g
      = (g 0).toList ++ (List.range n).filterMap (fun i => g (i + 1)) := by
  rw [List.range_succ_eq_map]
  cases h : g 0 with
  | none =>
    rw [List.filterMap_cons_none h, List.filterMap_map]
    simp [Function.comp_def, Nat.succ_eq_add_one]
  | some b =>
    rw [List.filterMap_cons_some h, List.filterMap_map]
    simp [Function.comp_def, Nat.succ_eq_add_one]

theorem mapAdjacent_nil (f : α → α → β) : mapAdjacent f ([] : List α) = [] := rfl

theorem mapAdjacent_single (f : α → α → β) (a : α) : mapAdjacent f [a] = [] := by
  simp [mapAdjacent, List.range_succ]

theorem mapAdjacent_cons_cons (f : α → α → β) (a b : α) (t : List α) :
    mapAdjacent f (a :: b :: t) = f a b :: mapAdjacent f (b :: t) := by
  rw [mapAdjacent, mapAdjacent, show (a :: b :: t).length = (b :: t).length + 1 from rfl,
    range_filterMap_succ]
  simp

theorem mapAdjacent_eq_zipWith (f : α → α → β) (l : List α) :
    mapAdjacent f l = List.zipWith f l l.tail := by
  induction l with
  | nil => rfl
  | cons a t ih =>
    cases t with
    | nil => exact mapAdjacent_single f a
    | cons b t' => rw [mapAdjacent_cons_cons, ih]; rfl

theorem mapAdjacent_length (f : α → α → β) (l : List α) :
    (mapAdjacent f l).length = l.length - 1 := by
  induction l with
  | nil => rfl
  | cons a t ih =>
    cases t with
    | nil => simp [mapAdjacent_single]
    | cons b t' => simp [mapAdjacent_cons_cons, ih]

theorem mapAdjacent_getElem?_of (f : α → α → β) {l : List α} {i : ℕ} {a b : α}
    (h1 : l[i]? = some a) (h2 : l[i + 1]? = some b) :
    (mapAdjacent f l)[i]? = some (f a b) := by
  induction l generalizing i with
  | nil => simp at h1
  | cons x t ih =>
    cases t with
    | nil =>
      cases i with
      | zero => simp at h2
      | succ j => simp at h1
    | cons y t' =>
      rw [mapAdjacent_cons_cons]
      cases i with
      | zero =>
        simp only [List.getElem?_cons_zero, Option.some.injEq] at h1
        simp only [List.getElem?_cons_succ, List.getElem?_cons_zero,
          Option.some.injEq] at h2
        simp [h1, h2]
      | succ j =>
        rw [List.getElem?_cons_succ] at h1
        rw [List.getElem?_cons_succ] at h2
        simpa using ih h1 h2

theorem mapAdjacent_map_fst (f : α → α → β) (g : β → γ) (h : α → γ)
    (hgf : ∀ a b, g (f a b) = h a) (l : List α) :
    (mapAdjacent f l).map g = (l.map h).dropLast := by
  induction l with
  | nil => rfl
  | cons a t ih =>
    cases t with
    | nil => simp [mapAdjacent_single]
    | cons b t' =>
      rw [mapAdjacent_cons_cons]
      simp only [List.map_cons, hgf, List.dropLast_cons₂]
      rw [ih]
      rfl

theorem mapAdjacent_eq_nil_of_short (f : α → α → β) {l : List α}
    (h : l.length ≤ 1) : mapAdjacent f l = [] := by
  match l, h with
  | [], _ => rfl
  | [a], _ => exact mapAdjacent_single f a

theorem jsDiv_one (x : JSNum) : jsDiv x (fin 1) = x := by
  cases x <;> simp [jsDiv]

theorem jsMax2_negInf (x : JSNum) : jsMax2 negInf x = x := by
  cases x <;> rfl

theorem jsMin2_posInf (x : JSNum) : jsMin2 posInf x = x := by
  cases x <;> rfl

theorem jsMaxList_singleton (x : JSNum) : jsMaxList [x] = x := jsMax2_negInf x

theorem jsMinList_singleton (x : JSNum) : jsMinList [x] = x := jsMin2_posInf x

theorem foldl_jsAdd_fin (a : ℚ) (l : List ℚ) :
    List.foldl jsAdd (fin a) (l.map fin) = fin (a + l.sum) := by
  induction l generalizing a with
  | nil => simp
  | cons x xs ih =>
    simp only [List.map_cons, List.foldl_cons, List.sum_cons]
    rw [show jsAdd (fin a) (fin x) = fin (a + x) from rfl, ih]
    ring_nf

theorem reduceAdd_map_fin (q : ℚ) (l : List ℚ) :
    reduceAdd ((q :: l).map fin) = some (fin (q + l.sum)) := by
  simp only [List.map_cons, reduceAdd]
  rw [foldl_jsAdd_fin]

theorem jsDiv_fin_zero_not_finite (x : JSNum) :
    (jsDiv x (fin 0)).isFinite = false := by
  cases x with
  | fin a =>
    by_cases h1 : 0 < a
    · simp [jsDiv, h1, isFinite]
    · by_cases h2 : a < 0 <;> simp [jsDiv, h1, h2, isFinite]
  | posInf => simp [jsDiv, isFinite]
  | negInf => simp [jsDiv, isFinite]
  | nan => rfl

theorem jsMul_pos_lit_not_finite {x : JSNum} (q : ℚ) (hq : 0 < q)
    (hx : x.isFinite = false) : (jsMul x (fin q)).isFinite = false := by
  cases x with
  | fin a => simp [isFinite] at hx
  | posInf => simp [jsMul, hq, isFinite]
  | negInf => simp [jsMul, hq, isFinite]
  | nan => rfl

theorem jsRound_not_finite {x : JSNum} (hx : x.isFinite = false) :
    (jsRound x).isFinite = false := by
  cases x with
  | fin a => simp [isFinite] at hx
  | posInf => rfl
  | negInf => rfl
  | nan => rfl

theorem jsDiv_pos_lit_not_finite {x : JSNum} (q : ℚ) (hq : 0 < q)
    (hx : x.isFinite = false) : (jsDiv x (fin q)).isFinite = false := by
  cases x with
  | fin a => simp [isFinite] at hx
  | posInf => simp [jsDiv, not_lt.mpr hq.le, isFinite]
  | negInf => simp [jsDiv, not_lt.mpr hq.le, isFinite]
  | nan => rfl

theorem mapM_eq_none_of_mem {f : α → Option β} {l : List α} {a : α}
    (ha : a ∈ l) (hf : f a = none) : l.mapM f = none := by
  rw [← List.mapM'_eq_mapM]
  induction l with
  | nil => cases ha
  | cons x xs ih =>
    cases ha with
    | head => simp [List.mapM'_cons, hf]
    | tail _ h =>
      cases hx : f x with
      | none => simp [List.mapM'_cons, hx]
      | some b => simp [List.mapM'_cons, hx, ih h]

theorem reduceAdd_ne_nil_map_fin (l : List ℚ) (hl : l ≠ []) :
    reduceAdd (l.map fin) = some (fin l.sum) := by
  cases l with
  | nil => cases hl rfl
  | cons q t => rw [reduceAdd_map_fin]; simp

theorem jsDiv_fin_of_ne_zero (a b : ℚ) (hb : b ≠ 0) :
    jsDiv (fin a) (fin b) = fin (a / b) := by
  simp [jsDiv, hb]

/-! ## Theorems -/

/-- C1: for an ordered list of (already filtered) position samples, the
distance derivation emits one segment per index `i` that has a successor,
whose distance is `sqrt((x2-x1)^2 + (y2-y1)^2)`, whose duration is
`samples[i+1].time - samples[i].time` rounded to one decimal place, and
whose timestamp is `samples[i].time`; no segment is emitted for the final
index, so there are `n - 1` segments. -/
theorem calculateDistances_correct (sqrt : JSNum → JSNum) (pts : List Point) :
    (calculateDistances sqrt pts).length = pts.length - 1 ∧
    ∀ i p1 p2, pts[i]? = some p1 → pts[i + 1]? = some p2 →
      (calculateDistances sqrt pts)[i]? = some
        { timestamp := p1.time
          time := jsDiv (jsRound (jsMul (jsSub p2.time p1.time) (fin 10))) (fin 10)
          distance := sqrt (jsAdd (jsPow2 (jsSub p2.x p1.x)) (jsPow2 (jsSub p2.y p1.y))) } :=
  ⟨mapAdjacent_length _ _, fun _ _ _ h1 h2 => mapAdjacent_getElem?_of _ h1 h2⟩

/-- Witness for C1: on Scenario A's samples the derivation yields two
segments, the first being `{timestamp: 0, time: 1, distance: 25}` (with the
identity standing in for `Math.sqrt`, `25 = 3^2 + 4^2`). -/
theorem calculateDistances_correct_witness :
    (calculateDistances sqrtStub samplePoints).length = 2 ∧
    (calculateDistances sqrtStub samplePoints)[0]?
      = some { timestamp := fin 0, time := fin 1, distance := fin 25 } := by
  have h := calculateDistances_correct sqrtStub samplePoints
  refine ⟨h.1.trans (by decide), ?_⟩
  rw [h.2 0 { time := fin 0, x := fin 0, y := fin 0 }
    { time := fin 1, x := fin 3, y := fin 4 } (by decide) (by decide)]
  norm_num [jsSub, jsAdd, jsNeg, jsMul, jsDiv, jsRound, jsPow2, sqrtStub, round_eq]

/-- C2: for an ordered list of distance segments, the speed derivation
emits, for each index `i` that has a successor, one sample with
`speed = distances[i].distance / distances[i].duration` rounded to two
decimals and `timestamp = distances[i].timestamp`; the output has one
fewer element than the input. -/
theorem calculateSpeeds_correct (ds : List DistanceSegment) :
    (calculateSpeeds ds).length = ds.length - 1 ∧
    ∀ i d1 d2, ds[i]? = some d1 → ds[i + 1]? = some d2 →
      (calculateSpeeds ds)[i]? = some
        { timestamp := d1.timestamp
          speed := jsDiv (jsRound (jsMul (jsDiv d1.distance d1.time) (fin 100))) (fin 100) } :=
  ⟨mapAdjacent_length _ _, fun _ _ _ h1 h2 => mapAdjacent_getElem?_of _ h1 h2⟩

/-- Witness for C2: on the two concrete segments the derivation yields one
sample, `{timestamp: 0, speed: 25}` (`25 / 1` rounded to two decimals). -/
theorem calculateSpeeds_correct_witness :
    (calculateSpeeds sampleDistances).length = 1 ∧
    (calculateSpeeds sampleDistances)[0]? = some { timestamp := fin 0, speed := fin 25 } := by
  have h := calculateSpeeds_correct sampleDistances
  refine ⟨h.1.trans (by decide), ?_⟩
  rw [h.2 0 { timestamp := fin 0, time := fin 1, distance := fin 25 }
    { timestamp := fin 1, time := fin 1, distance := fin 0 } (by decide) (by decide)]
  norm_num [jsDiv, jsMul, jsRound, round_eq]

/-- C3: on a position list of length `n ≥ 2` with strictly increasing,
finite times and finite coordinates, the pipeline yields exactly `n - 1`
distance segments, `n - 2` speed samples, and `n - 3` acceleration samples
(natural-number subtraction: zero when the difference would be negative). -/
theorem pipeline_lengths (sqrt : JSNum → JSNum) (pts : List Point)
    (hn : 2 ≤ pts.length) (_hinc : strictlyIncreasingTimes pts)
    (_hfin : allFiniteSamples pts) :
    (calculateDistances sqrt pts).length = pts.length - 1 ∧
    (calculateSpeeds (calculateDistances sqrt pts)).length = pts.length - 2 ∧
    (calculateAccelerations (calculateSpeeds (calculateDistances sqrt pts))).length
      = pts.length - 3 := by
  have l1 : (calculateDistances sqrt pts).length = pts.length - 1 :=
    mapAdjacent_length _ _
  have l2 : (calculateSpeeds (calculateDistances sqrt pts)).length
      = (calculateDistances sqrt pts).length - 1 := mapAdjacent_length _ _
  have l3 : (calculateAccelerations (calculateSpeeds (calculateDistances sqrt pts))).length
      = (calculateSpeeds (calculateDistances sqrt pts)).length - 1 := mapAdjacent_length _ _
  refine ⟨l1, ?_, ?_⟩ <;> omega

/-- Witness for C3: Scenario A's three samples have strictly increasing
finite times and finite coordinates and yield 2 distance segments, 1 speed
sample, and 0 acceleration samples. -/
theorem pipeline_lengths_witness :
    (calculateDistances sqrtStub samplePoints).length = samplePoints.length - 1 ∧
    (calculateSpeeds (calculateDistances sqrtStub samplePoints)).length
      = samplePoints.length - 2 ∧
    (calculateAccelerations (calculateSpeeds (calculateDistances sqrtStub samplePoints))).length
      = samplePoints.length - 3 :=
  pipeline_lengths sqrtStub samplePoints (by decide)
    (by norm_num [strictlyIncreasingTimes, samplePoints, List.chain'_cons,
      List.chain'_singleton, jsLt])
    (by norm_num [allFiniteSamples, samplePoints, isFinite])

/-- C9: each derivation function returns the empty list on inputs of
length 0 or 1 (and, being a total function, fails on no input). -/
theorem derivations_empty_on_short (sqrt : JSNum → JSNum) (pts : List Point)
    (ds : List DistanceSegment) (ss : List SpeedSample)
    (h1 : pts.length ≤ 1) (h2 : ds.length ≤ 1) (h3 : ss.length ≤ 1) :
    calculateDistances sqrt pts = [] ∧ calculateSpeeds ds = []
      ∧ calculateAccelerations ss = [] :=
  ⟨mapAdjacent_eq_nil_of_short _ h1, mapAdjacent_eq_nil_of_short _ h2,
    mapAdjacent_eq_nil_of_short _ h3⟩

/-- Witness for C9: singleton inputs all map to the empty list. -/
theorem derivations_empty_on_short_witness :
    calculateDistances sqrtStub [{ time := fin 0, x := fin 0, y := fin 0 }] = [] ∧
    calculateSpeeds [{ timestamp := fin 0, time := fin 1, distance := fin 25 }] = [] ∧
    calculateAccelerations [{ timestamp := fin 0, speed := fin 25 }] = [] :=
  derivations_empty_on_short sqrtStub _ _ _ (by decide) (by decide) (by decide)

/-- C5: the series projection maps each speed sample to
`{x: timestamp, y: speed, c: 0}` (the speed series tag) and each
acceleration sample to `{x: timestamp, y: acceleration, c: 1}` (the
acceleration series tag), all speed tuples first, then all acceleration
tuples, in one flat list, with no other computation. -/
theorem chartValues_correct (speeds : List SpeedSample)
    (accelerations : List AccelerationSample) :
    (chartValues speeds accelerations).length = speeds.length + accelerations.length ∧
    (∀ (i : ℕ) (s : SpeedSample), speeds[i]? = some s →
      (chartValues speeds accelerations)[i]?
        = some { x := s.timestamp, y := s.speed, c := fin 0 }) ∧
    (∀ (j : ℕ) (a : AccelerationSample), accelerations[j]? = some a →
      (chartValues speeds accelerations)[speeds.length + j]?
        = some { x := a.timestamp, y := a.acceleration, c := fin 1 }) := by
  refine ⟨by simp [chartValues], ?_, ?_⟩
  · intro i s hs
    have hi : i < speeds.length := by
      rcases List.getElem?_eq_some_iff.mp hs with ⟨h, _⟩
      exact h
    rw [chartValues, List.getElem?_append_left (by simpa using hi)]
    simp [hs]
  · intro j a ha
    rw [chartValues, List.getElem?_append_right (by simp)]
    simp [ha]

/-- Witness for C5: one speed sample and one acceleration sample project
to a two-element series list with tags 0 and 1. -/
theorem chartValues_correct_witness :
    (chartValues [{ timestamp := fin 0, speed := fin 25 }]
        [{ timestamp := fin 0, time := fin 1, acceleration := fin 2 }]).length = 2 ∧
    (chartValues [{ timestamp := fin 0, speed := fin 25 }]
        [{ timestamp := fin 0, time := fin 1, acceleration := fin 2 }])[0]?
      = some { x := fin 0, y := fin 25, c := fin 0 } ∧
    (chartValues [{ timestamp := fin 0, speed := fin 25 }]
        [{ timestamp := fin 0, time := fin 1, acceleration := fin 2 }])[1]?
      = some { x := fin 0, y := fin 2, c := fin 1 } := by
  have h := chartValues_correct [{ timestamp := fin 0, speed := fin 25 }]
    [{ timestamp := fin 0, time := fin 1, acceleration := fin 2 }]
  exact ⟨h.1, h.2.1 0 _ rfl, h.2.2 0 _ rfl⟩

/-- C6: whenever a distance segment has duration zero and a successor
exists, the speed derivation still emits a sample at that index (the case
is not skipped), obtained by an unguarded division by zero, and its speed
value is non-finite (not clamped). -/
theorem calculateSpeeds_zero_duration (ds : List DistanceSegment) (i : ℕ)
    (d1 d2 : DistanceSegment) (h1 : ds[i]? = some d1) (h2 : ds[i + 1]? = some d2)
    (hz : d1.time = fin 0) :
    ∃ s, (calculateSpeeds ds)[i]? = some s ∧ s.timestamp = d1.timestamp ∧
      s.speed.isFinite = false := by
  refine ⟨_, mapAdjacent_getElem?_of _ h1 h2, rfl, ?_⟩
  show (jsDiv (jsRound (jsMul (jsDiv d1.distance d1.time) (fin 100))) (fin 100)).isFinite
    = false
  rw [hz]
  exact jsDiv_pos_lit_not_finite 100 (by norm_num)
    (jsRound_not_finite (jsMul_pos_lit_not_finite 100 (by norm_num)
      (jsDiv_fin_zero_not_finite d1.distance)))

/-- Witness for C6: a first segment of distance 25 and duration 0 yields a
speed sample at index 0 with a non-finite speed. -/
theorem calculateSpeeds_zero_duration_witness :
    ∃ s, (calculateSpeeds
        [ { timestamp := fin 0, time := fin 0, distance := fin 25 }
        , { timestamp := fin 1, time := fin 1, distance := fin 0 } ])[0]?
      = some s ∧ s.timestamp = fin 0 ∧ s.speed.isFinite = false :=
  calculateSpeeds_zero_duration _ 0
    { timestamp := fin 0, time := fin 0, distance := fin 25 }
    { timestamp := fin 1, time := fin 1, distance := fin 0 } rfl rfl rfl

/-- C7: the global summary of a single `MatchSummary` has every field
equal to that summary's own value (each maximum, minimum and average of a
one-element list is the element itself). -/
theorem summarizeGlobal_singleton (s : MatchSummary) :
    summarizeGlobal [s] = some
      { maxSpeed_fps := s.maxSpeed_fps
        avgMaxSpeed_fps := s.maxSpeed_fps
        avgSpeed_fps := s.avgSpeed_fps
        maxAccel_fpsps := s.maxAccel_fpsps
        avgMaxAccel_fpsps := s.maxAccel_fpsps
        maxBrake_fpsps := s.maxBrake_fpsps
        avgMaxBrake_fpsps := s.maxBrake_fpsps } := by
  simp [summarizeGlobal, reduceAdd, jsMaxList, jsMinList, jsMax2_negInf,
    jsMin2_posInf, jsDiv_one]

/-- C8: each derivation stage aligns output timestamps with the earlier
element of each consecutive input pair (the output timestamp list is the
input timestamp list without its last element), and in particular maps a
non-decreasing input timestamp sequence to a non-decreasing output
timestamp sequence. -/
theorem derived_timestamps (sqrt : JSNum → JSNum) (pts : List Point)
    (ds : List DistanceSegment) (ss : List SpeedSample)
    (hpts : jsNondecreasing (pts.map Point.time))
    (hds : jsNondecreasing (ds.map DistanceSegment.timestamp))
    (hss : jsNondecreasing (ss.map SpeedSample.timestamp)) :
    ((calculateDistances sqrt pts).map DistanceSegment.timestamp
        = (pts.map Point.time).dropLast ∧
      jsNondecreasing ((calculateDistances sqrt pts).map DistanceSegment.timestamp)) ∧
    ((calculateSpeeds ds).map SpeedSample.timestamp
        = (ds.map DistanceSegment.timestamp).dropLast ∧
      jsNondecreasing ((calculateSpeeds ds).map SpeedSample.timestamp)) ∧
    ((calculateAccelerations ss).map AccelerationSample.timestamp
        = (ss.map SpeedSample.timestamp).dropLast ∧
      jsNondecreasing ((calculateAccelerations ss).map AccelerationSample.timestamp)) := by
  have e1 : (calculateDistances sqrt pts).map DistanceSegment.timestamp
      = (pts.map Point.time).dropLast := by
    unfold calculateDistances
    exact mapAdjacent_map_fst _ DistanceSegment.timestamp Point.time (fun _ _ => rfl) pts
  have e2 : (calculateSpeeds ds).map SpeedSample.timestamp
      = (ds.map DistanceSegment.timestamp).dropLast := by
    unfold calculateSpeeds
    exact mapAdjacent_map_fst _ SpeedSample.timestamp DistanceSegment.timestamp
      (fun _ _ => rfl) ds
  have e3 : (calculateAccelerations ss).map AccelerationSample.timestamp
      = (ss.map SpeedSample.timestamp).dropLast := by
    unfold calculateAccelerations
    exact mapAdjacent_map_fst _ AccelerationSample.timestamp SpeedSample.timestamp
      (fun _ _ => rfl) ss
  refine ⟨⟨e1, ?_⟩, ⟨e2, ?_⟩, ⟨e3, ?_⟩⟩
  · rw [e1]; exact hpts.init
  · rw [e2]; exact hds.init
  · rw [e3]; exact hss.init

/-- Witness for C8: concrete non-decreasing two-element inputs at each
stage produce singleton timestamp lists equal to the input's first
timestamp, which are non-decreasing. -/
theorem derived_timestamps_witness :
    ((calculateDistances sqrtStub
        [ { time := fin 0, x := fin 0, y := fin 0 }
        , { time := fin 1, x := fin 3, y := fin 4 } ]).map DistanceSegment.timestamp
      = ([ { time := fin 0, x := fin 0, y := fin 0 }
         , { time := fin 1, x := fin 3, y := fin 4 } ].map Point.time).dropLast ∧
      jsNondecreasing ((calculateDistances sqrtStub
        [ { time := fin 0, x := fin 0, y := fin 0 }
        , { time := fin 1, x := fin 3, y := fin 4 } ]).map DistanceSegment.timestamp)) ∧
    ((calculateSpeeds sampleDistances).map SpeedSample.timestamp
      = (sampleDistances.map DistanceSegment.timestamp).dropLast ∧
      jsNondecreasing ((calculateSpeeds sampleDistances).map SpeedSample.timestamp)) ∧
    ((calculateAccelerations
        [ { timestamp := fin 0, speed := fin 25 }
        , { timestamp := fin 1, speed := fin 0 } ]).map AccelerationSample.timestamp
      = ([ { timestamp := fin 0, speed := fin 25 }
         , { timestamp := fin 1, speed := fin 0 } ].map SpeedSample.timestamp).dropLast ∧
      jsNondecreasing ((calculateAccelerations
        [ { timestamp := fin 0, speed := fin 25 }
        , { timestamp := fin 1, speed := fin 0 } ]).map AccelerationSample.timestamp)) :=
  derived_timestamps sqrtStub _ _ _
    (by norm_num [jsNondecreasing, List.chain'_cons, List.chain'_singleton, jsLe])
    (by norm_num [jsNondecreasing, sampleDistances, List.chain'_cons,
      List.chain'_singleton, jsLe])
    (by norm_num [jsNondecreasing, List.chain'_cons, List.chain'_singleton, jsLe])

/-- Counterexample for C4: a match with fewer than 2 usable samples
(`badMatch`) is not excluded from the aggregate statistics.  Its summary
computation reduces an empty speed array, which throws, so the whole run
fails (`none`) instead of producing the statistics that the remaining
matches alone would produce (`some ...`). -/
theorem calculate_short_match_counterexample :
    calculate sqrtStub [badMatch, goodMatch] = none ∧
    calculate sqrtStub [goodMatch]
      = some
        { individual_matches :=
            [ { matchKey := "qm2", team := 2539, maxSpeed_fps := fin 25
              , avgSpeed_fps := fin 25, maxAccel_fpsps := negInf
              , maxBrake_fpsps := posInf } ]
          globalStats :=
            { maxSpeed_fps := fin 25, avgMaxSpeed_fps := fin 25
              avgSpeed_fps := fin 25, maxAccel_fpsps := negInf
              avgMaxAccel_fpsps := negInf, maxBrake_fpsps := posInf
              avgMaxBrake_fpsps := posInf } } := by
  constructor
  · rfl
  · have hfp : filterPoints goodMatch.points
        = [ { time := fin 0, x := fin 0, y := fin 0 }
          , { time := fin 1, x := fin 3, y := fin 4 }
          , { time := fin 2, x := fin 3, y := fin 4 } ] := rfl
    have hdist : calculateDistances sqrtStub
        [ { time := fin 0, x := fin 0, y := fin 0 }
        , { time := fin 1, x := fin 3, y := fin 4 }
        , { time := fin 2, x := fin 3, y := fin 4 } ]
        = [ { timestamp := fin 0, time := fin 1, distance := fin 25 }
          , { timestamp := fin 1, time := fin 1, distance := fin 0 } ] := by
      rw [calculateDistances, mapAdjacent_cons_cons, mapAdjacent_cons_cons,
        mapAdjacent_single]
      norm_num [jsSub, jsAdd, jsNeg, jsMul, jsDiv, jsRound, jsPow2, sqrtStub, round_eq]
    have hsp : calculateSpeeds
        [ { timestamp := fin 0, time := fin 1, distance := fin 25 }
        , { timestamp := fin 1, time := fin 1, distance := fin 0 } ]
        = [ { timestamp := fin 0, speed := fin 25 } ] := by
      rw [calculateSpeeds, mapAdjacent_cons_cons, mapAdjacent_single]
      norm_num [jsDiv, jsMul, jsRound, round_eq]
    have hacc : calculateAccelerations [ { timestamp := fin 0, speed := fin 25 } ]
        = [] := rfl
    have hm : processMatch sqrtStub goodMatch
        = some { matchKey := "qm2", team := 2539, maxSpeed_fps := fin 25
               , avgSpeed_fps := fin 25, maxAccel_fpsps := negInf
               , maxBrake_fpsps := posInf } := by
      simp only [processMatch, hfp, hdist, hsp, hacc]
      norm_num [reduceAdd, jsMaxList, jsMinList, jsMax2, jsMin2, jsDiv, jsAdd,
        jsMul, jsRound, round_eq]
      exact ⟨rfl, rfl⟩
    have hg : summarizeGlobal
        [ { matchKey := "qm2", team := 2539, maxSpeed_fps := fin 25
          , avgSpeed_fps := fin 25, maxAccel_fpsps := negInf
          , maxBrake_fpsps := posInf } ]
        = some { maxSpeed_fps := fin 25, avgMaxSpeed_fps := fin 25
               , avgSpeed_fps := fin 25, maxAccel_fpsps := negInf
               , avgMaxAccel_fpsps := negInf, maxBrake_fpsps := posInf
               , avgMaxBrake_fpsps := posInf } := by
      norm_num [summarizeGlobal, reduceAdd, jsMaxList, jsMinList, jsMax2,
        jsMin2, jsDiv, jsAdd]
    simp only [calculate, ← List.mapM'_eq_mapM, List.mapM'_cons, List.mapM'_nil, hm]
    simp [hg]

/-- C4 (amended): a match with fewer than 2 usable position samples (after
removing null-coordinate samples) yields empty derived
distance/speed/acceleration sequences, but it is NOT excluded from the
aggregate statistics: building its `individual_matches` entry reduces an
empty speed array, which throws, so the whole stats computation of any
dataset containing such a match fails and produces no output at all. -/
theorem match_short_not_excluded (sqrt : JSNum → JSNum) (m : MatchData)
    (h : (filterPoints m.points).length < 2) :
    calculateDistances sqrt (filterPoints m.points) = [] ∧
    calculateSpeeds (calculateDistances sqrt (filterPoints m.points)) = [] ∧
    calculateAccelerations
      (calculateSpeeds (calculateDistances sqrt (filterPoints m.points))) = [] ∧
    processMatch sqrt m = none ∧
    ∀ data, m ∈ data → calculate sqrt data = none := by
  have hd : calculateDistances sqrt (filterPoints m.points) = [] :=
    mapAdjacent_eq_nil_of_short _ (by omega)
  have hs : calculateSpeeds (calculateDistances sqrt (filterPoints m.points)) = [] := by
    rw [hd]; rfl
  have ha : calculateAccelerations
      (calculateSpeeds (calculateDistances sqrt (filterPoints m.points))) = [] := by
    rw [hs]; rfl
  have hp : processMatch sqrt m = none := by
    simp only [processMatch]
    rw [hs]
    rfl
  refine ⟨hd, hs, ha, hp, fun data hm => ?_⟩
  simp only [calculate]
  rw [mapM_eq_none_of_mem hm hp]
  rfl

/-- Witness for (amended) C4: `badMatch` has one usable sample, its
derived sequences are empty, its summary computation throws, and the run
over the dataset `[badMatch]` produces nothing. -/
theorem match_short_not_excluded_witness :
    calculateDistances sqrtStub (filterPoints badMatch.points) = [] ∧
    calculateSpeeds (calculateDistances sqrtStub (filterPoints badMatch.points)) = [] ∧
    calculateAccelerations
      (calculateSpeeds (calculateDistances sqrtStub (filterPoints badMatch.points))) = [] ∧
    processMatch sqrtStub badMatch = none ∧
    calculate sqrtStub [badMatch] = none := by
  have h := match_short_not_excluded sqrtStub badMatch (by decide)
  exact ⟨h.1, h.2.1, h.2.2.1, h.2.2.2.1, h.2.2.2.2 [badMatch] (by simp)⟩

/-- C10: the four global average fields of the stats object are the exact
arithmetic means of the corresponding per-match fields — no rounding is
applied at aggregation (rounding happens only at derivation). -/
theorem summarizeGlobal_averages_exact (ims : List MatchSummary)
    (q1 q2 q3 q4 : List ℚ) (hne : ims ≠ [])
    (h1 : ims.map (fun m => m.maxSpeed_fps) = q1.map fin)
    (h2 : ims.map (fun m => m.avgSpeed_fps) = q2.map fin)
    (h3 : ims.map (fun m => m.maxAccel_fpsps) = q3.map fin)
    (h4 : ims.map (fun m => m.maxBrake_fpsps) = q4.map fin) :
    ∃ g, summarizeGlobal ims = some g ∧
      g.avgMaxSpeed_fps = fin (ratMean q1) ∧
      g.avgSpeed_fps = fin (ratMean q2) ∧
      g.avgMaxAccel_fpsps = fin (ratMean q3) ∧
      g.avgMaxBrake_fpsps = fin (ratMean q4) := by
  have hq1 : q1 ≠ [] := fun hq => hne (by simpa [hq] using h1)
  have hq2 : q2 ≠ [] := fun hq => hne (by simpa [hq] using h2)
  have hq3 : q3 ≠ [] := fun hq => hne (by simpa [hq] using h3)
  have hq4 : q4 ≠ [] := fun hq => hne (by simpa [hq] using h4)
  have e1 : ims.length = q1.length := by simpa using congrArg List.length h1
  have e2 : ims.length = q2.length := by simpa using congrArg List.length h2
  have e3 : ims.length = q3.length := by simpa using congrArg List.length h3
  have e4 : ims.length = q4.length := by simpa using congrArg List.length h4
  have hn : ((ims.length : ℚ)) ≠ 0 := by
    have h0 : ims.length ≠ 0 := by
      cases ims with
      | nil => cases hne rfl
      | cons _ _ => simp
    exact_mod_cast h0
  simp only [summarizeGlobal, h1, h2, h3, h4,
    reduceAdd_ne_nil_map_fin q1 hq1, reduceAdd_ne_nil_map_fin q2 hq2,
    reduceAdd_ne_nil_map_fin q3 hq3, reduceAdd_ne_nil_map_fin q4 hq4,
    Option.bind_some, Option.some_bind, Option.bind_eq_bind]
  refine ⟨_, rfl, ?_, ?_, ?_, ?_⟩
  · show jsDiv (fin q1.sum) (fin (ims.length : ℚ)) = fin (ratMean q1)
    rw [jsDiv_fin_of_ne_zero _ _ hn, ratMean, e1]
  · show jsDiv (fin q2.sum) (fin (ims.length : ℚ)) = fin (ratMean q2)
    rw [jsDiv_fin_of_ne_zero _ _ hn, ratMean, e2]
  · show jsDiv (fin q3.sum) (fin (ims.length : ℚ)) = fin (ratMean q3)
    rw [jsDiv_fin_of_ne_zero _ _ hn, ratMean, e3]
  · show jsDiv (fin q4.sum) (fin (ims.length : ℚ)) = fin (ratMean q4)
    rw [jsDiv_fin_of_ne_zero _ _ hn, ratMean, e4]

/-- Witness for C10 (Scenario D shape): two matches with max speeds 10 and
20 give an unrounded global average max speed of 15, and the other three
averages are the exact means of their fields. -/
theorem summarizeGlobal_averages_exact_witness :
    ∃ g, summarizeGlobal
        [ { matchKey := "qm1", team := 2539, maxSpeed_fps := fin 10
          , avgSpeed_fps := fin 8, maxAccel_fpsps := fin 1
          , maxBrake_fpsps := fin (-1) }
        , { matchKey := "qm2", team := 2539, maxSpeed_fps := fin 20
          , avgSpeed_fps := fin 12, maxAccel_fpsps := fin 3
          , maxBrake_fpsps := fin (-5) } ] = some g ∧
      g.avgMaxSpeed_fps = fin (ratMean [10, 20]) ∧
      g.avgSpeed_fps = fin (ratMean [8, 12]) ∧
      g.avgMaxAccel_fpsps = fin (ratMean [1, 3]) ∧
      g.avgMaxBrake_fpsps = fin (ratMean [-1, -5]) :=
  summarizeGlobal_averages_exact _ [10, 20] [8, 12] [1, 3] [-1, -5]
    (by simp) rfl rfl rfl rfl
